import Mathlib

/-!
Verification of the tour-agency CRUD backend (src/backend/server.py).

The server keeps Tour documents in a MongoDB collection and exposes
create / list / get-by-id / update / delete handlers.  We embed the
collection as a `List Tour` kept in insertion order (MongoDB natural
order): `insert_one` appends, `find_one` returns the first match,
`update_one` rewrites the first match, `delete_one` removes the first
match, and `find(query).to_list(1000)` filters then truncates to the
first 1000 documents.  Timestamps (`datetime.utcnow`) and generated ids
(`uuid.uuid4`) are nondeterministic environment reads, so the handlers
take them as explicit parameters.
-/

set_option maxRecDepth 100000

/-- Scalar JSON values (nulls, booleans, numbers, strings).  JSON numbers
are embedded as rationals. -/
inductive JScalar where
  | null
  | bool (b : Bool)
  | num (q : Rat)
  | str (s : String)
deriving DecidableEq, Repr

/-- JSON values appearing as fields of a request body: a scalar or a flat
object.  The claims only exercise one level of nesting inside
`package_details`, so deeper nesting is not modelled. -/
inductive JVal where
  | scalar (v : JScalar)
  | obj (fields : List (String × JScalar))
deriving DecidableEq, Repr

/-- A JSON request body: a JSON object, i.e. a list of key/value pairs. -/
abbrev JBody := List (String × JVal)

/-- First value bound to key `k` in a JSON object body. -/
def jlookup (body : JBody) (k : String) : Option JVal :=
  (body.find? (fun p => p.1 == k)).map (fun p => p.2)

/-- The stored `Tour` document, mirroring the pydantic model `Tour` in
src/backend/server.py.  `price : float` is embedded as `Rat` (the server
only stores and returns it, no float arithmetic occurs); timestamps are
embedded as `Nat`. -/
structure Tour where
  id : String
  title : String
  description : String
  destination : String
  duration : Int
  price : Rat
  max_capacity : Int
  available_spots : Int
  start_date : String
  end_date : String
  image_url : String
  package_details : List (String × JScalar)
  created_at : Nat
  updated_at : Nat
deriving DecidableEq, Repr

/-- The create request model `TourCreate`: all eleven input fields are
required, none is optional. -/
structure TourCreate where
  title : String
  description : String
  destination : String
  duration : Int
  price : Rat
  max_capacity : Int
  available_spots : Int
  start_date : String
  end_date : String
  image_url : String
  package_details : List (String × JScalar)
deriving DecidableEq, Repr

/-- The partial-update request model `TourUpdate`: every field is optional
and defaults to null; `id`, `created_at` and `updated_at` are not fields
of this model. -/
structure TourUpdate where
  title : Option String := none
  description : Option String := none
  destination : Option String := none
  duration : Option Int := none
  price : Option Rat := none
  max_capacity : Option Int := none
  available_spots : Option Int := none
  start_date : Option String := none
  end_date : Option String := none
  image_url : Option String := none
  package_details : Option (List (String × JScalar)) := none
deriving DecidableEq, Repr

/-- Error outcomes of a handler: `notFound` is the HTTPException 404
raised for absent ids, `validationFailure` is FastAPI's 422 for a body
rejected by pydantic, `internalError` stands for an unhandled exception
(500); no handler path below ever produces it. -/
inductive ApiError where
  | notFound
  | validationFailure
  | internalError
deriving DecidableEq, Repr

/-- Case-insensitive match of one regex pattern character against one
subject character: `.` matches anything, any other character matches up
to case. -/
def charMatchI (p c : Char) : Bool := p == '.' || p.toLower == c.toLower

/-- Match the pattern against a prefix of the subject. -/
def matchHere : List Char → List Char → Bool
  | [], _ => true
  | _ :: _, [] => false
  | p :: ps, c :: cs => charMatchI p c && matchHere ps cs

/-- Unanchored regex search: the pattern matches starting at some
position of the subject. -/
def regexSearch (pat : List Char) : List Char → Bool
  | [] => matchHere pat []
  | c :: cs => matchHere pat (c :: cs) || regexSearch pat cs

/-- Model of MongoDB `{"$regex": pat, "$options": "i"}` applied to a
stored string, as used by `get_tours`.  The server interpolates the raw
query parameter into the pattern, so pattern characters keep their regex
meaning.  The model is faithful for patterns built from literal
characters and `.`; other PCRE metacharacters (which the handler would
also pass through) are treated as literals here and are excluded by
hypothesis in the theorems below. -/
def regexSearchI (pat s : String) : Bool := regexSearch pat.data s.data

/-- The `$or` clause that `get_tours` builds for a truthy `search`
parameter: case-insensitive regex against title, description, or
destination. -/
def matchesSearch (s : String) (t : Tour) : Bool :=
  regexSearchI s t.title || regexSearchI s t.description || regexSearchI s t.destination

/-- The clause that `get_tours` builds for a truthy `destination`
parameter: case-insensitive regex against destination alone. -/
def matchesDest (d : String) (t : Tour) : Bool := regexSearchI d t.destination

/-- The filter document built by `get_tours`, as a predicate on stored
tours.  Python's `if search:` / `if destination:` add each clause only
when the parameter is present and nonempty; MongoDB joins the two
top-level clauses conjunctively. -/
def queryPred (search destination : Option String) (t : Tour) : Bool :=
  (match search with
   | none => true
   | some s => if s.isEmpty then true else matchesSearch s t) &&
  (match destination with
   | none => true
   | some d => if d.isEmpty then true else matchesDest d t)

/-- Handler `GET /api/tours`: `db.tours.find(query).to_list(1000)`
filters the collection and returns at most the first 1000 matches. -/
def get_tours (store : List Tour) (search destination : Option String) : List Tour :=
  (store.filter (queryPred search destination)).take 1000

/-- Handler `GET /api/tours/{tour_id}`: `find_one({"id": tour_id})`
returns the first document with that id, else the handler raises 404. -/
def get_tour (tour_id : String) (store : List Tour) : Except ApiError Tour :=
  match store.find? (fun t => t.id == tour_id) with
  | some t => .ok t
  | none => .error .notFound

/-- `Tour(**tour_data.dict())`: build the stored document from the create
input, with the generated id and both timestamps set to the current
time. -/
def mkTour (c : TourCreate) (freshId : String) (now : Nat) : Tour :=
  { id := freshId, title := c.title, description := c.description,
    destination := c.destination, duration := c.duration, price := c.price,
    max_capacity := c.max_capacity, available_spots := c.available_spots,
    start_date := c.start_date, end_date := c.end_date, image_url := c.image_url,
    package_details := c.package_details, created_at := now, updated_at := now }

/-- Handler `POST /api/tours` after validation: builds the document,
`insert_one` appends it to the collection, and the handler returns it. -/
def create_tour (c : TourCreate) (freshId : String) (now : Nat) (store : List Tour) :
    Tour × List Tour :=
  let t := mkTour c freshId now
  (t, store ++ [t])

/-- Apply `{"$set": update_data}` to one document: non-null fields of the
partial input overwrite the stored values, `updated_at` is always set to
the current time, and `id` / `created_at` are untouched (the update model
has no such fields). -/
def applyUpdate (u : TourUpdate) (now : Nat) (t : Tour) : Tour :=
  { t with
    title := u.title.getD t.title
    description := u.description.getD t.description
    destination := u.destination.getD t.destination
    duration := u.duration.getD t.duration
    price := u.price.getD t.price
    max_capacity := u.max_capacity.getD t.max_capacity
    available_spots := u.available_spots.getD t.available_spots
    start_date := u.start_date.getD t.start_date
    end_date := u.end_date.getD t.end_date
    image_url := u.image_url.getD t.image_url
    package_details := u.package_details.getD t.package_details
    updated_at := now }

/-- `update_one({"id": tour_id}, ...)`: rewrite the first document whose
id matches, leave everything else in place. -/
def setFirstById (tour_id : String) (f : Tour → Tour) : List Tour → List Tour
  | [] => []
  | t :: ts => if t.id == tour_id then f t :: ts else t :: setFirstById tour_id f ts

/-- Handler `PUT /api/tours/{tour_id}`: 404 when `find_one` misses;
otherwise `update_one` applies the `$set`, the document is re-read and
returned.  The re-read cannot miss, so the `internalError` arm (the
`Tour(**None)` crash the code would hit there) is unreachable. -/
def update_tour (tour_id : String) (u : TourUpdate) (now : Nat) (store : List Tour) :
    Except ApiError Tour × List Tour :=
  match store.find? (fun t => t.id == tour_id) with
  | none => (.error .notFound, store)
  | some _ =>
    let store' := setFirstById tour_id (applyUpdate u now) store
    match store'.find? (fun t => t.id == tour_id) with
    | some t' => (.ok t', store')
    | none => (.error .internalError, store')

/-- `delete_one({"id": tour_id})`: remove the first document whose id
matches. -/
def eraseFirstById (tour_id : String) : List Tour → List Tour
  | [] => []
  | t :: ts => if t.id == tour_id then ts else t :: eraseFirstById tour_id ts

/-- Handler `DELETE /api/tours/{tour_id}`: 404 when `deleted_count` is
zero, else a fixed confirmation message that carries no data from the
deleted record. -/
def delete_tour (tour_id : String) (store : List Tour) : Except ApiError String × List Tour :=
  if store.any (fun t => t.id == tour_id) then
    (.ok "Tour deleted successfully", eraseFirstById tour_id store)
  else
    (.error .notFound, store)

/-- Extract a required string field (pydantic `str`). -/
def asStr : Option JVal → Option String
  | some (.scalar (.str s)) => some s
  | _ => none

/-- Extract a required integer field (pydantic `int`): an integral JSON
number. -/
def asInt : Option JVal → Option Int
  | some (.scalar (.num q)) => if q.den = 1 then some q.num else none
  | _ => none

/-- Extract a required numeric field (pydantic `float`). -/
def asNum : Option JVal → Option Rat
  | some (.scalar (.num q)) => some q
  | _ => none

/-- Extract a required object field (pydantic `dict`). -/
def asDict : Option JVal → Option (List (String × JScalar))
  | some (.obj fs) => some fs
  | _ => none

/-- Modelled from the spec: request-body validation for the `TourCreate`
schema declared in src/backend/server.py.  The validation engine itself
(pydantic via FastAPI) is third-party code not in src/; the spec states
that create input "must supply all required fields (no optional fields
accepted)" and that malformed or missing input surfaces as a
422-equivalent.  Each declared field must therefore be present with a
value of its declared type, and extra fields are ignored. -/
def parseTourCreate (body : JBody) : Option TourCreate :=
  (asStr (jlookup body "title")).bind fun title =>
  (asStr (jlookup body "description")).bind fun description =>
  (asStr (jlookup body "destination")).bind fun destination =>
  (asInt (jlookup body "duration")).bind fun duration =>
  (asNum (jlookup body "price")).bind fun price =>
  (asInt (jlookup body "max_capacity")).bind fun max_capacity =>
  (asInt (jlookup body "available_spots")).bind fun available_spots =>
  (asStr (jlookup body "start_date")).bind fun start_date =>
  (asStr (jlookup body "end_date")).bind fun end_date =>
  (asStr (jlookup body "image_url")).bind fun image_url =>
  (asDict (jlookup body "package_details")).map fun package_details =>
  { title := title, description := description, destination := destination,
    duration := duration, price := price, max_capacity := max_capacity,
    available_spots := available_spots, start_date := start_date,
    end_date := end_date, image_url := image_url,
    package_details := package_details }

/-- The field `k` of the body holds a string. -/
def fieldIsStr (body : JBody) (k : String) : Bool :=
  match jlookup body k with
  | some (.scalar (.str _)) => true
  | _ => false

/-- The field `k` of the body holds an integral number. -/
def fieldIsInt (body : JBody) (k : String) : Bool :=
  match jlookup body k with
  | some (.scalar (.num q)) => q.den == 1
  | _ => false

/-- The field `k` of the body holds a number. -/
def fieldIsNum (body : JBody) (k : String) : Bool :=
  match jlookup body k with
  | some (.scalar (.num _)) => true
  | _ => false

/-- The field `k` of the body holds an object. -/
def fieldIsDict (body : JBody) (k : String) : Bool :=
  match jlookup body k with
  | some (.obj _) => true
  | _ => false

/-- Spec-side validity of a create request: every one of the eleven
required fields is present with its declared type. -/
def validCreate (body : JBody) : Bool :=
  fieldIsStr body "title" && fieldIsStr body "description" &&
  fieldIsStr body "destination" && fieldIsInt body "duration" &&
  fieldIsNum body "price" && fieldIsInt body "max_capacity" &&
  fieldIsInt body "available_spots" && fieldIsStr body "start_date" &&
  fieldIsStr body "end_date" && fieldIsStr body "image_url" &&
  fieldIsDict body "package_details"

/-- Handler `POST /api/tours` including the validation layer: a body
rejected by the schema never reaches `create_tour`, so the collection is
untouched and the client sees the 422-equivalent. -/
def create_endpoint (body : JBody) (freshId : String) (now : Nat) (store : List Tour) :
    Except ApiError Tour × List Tour :=
  match parseTourCreate body with
  | none => (.error .validationFailure, store)
  | some c =>
    let r := create_tour c freshId now store
    (.ok r.1, r.2)

/-- Extract an optional string field of `TourUpdate` (pydantic
`Optional[str] = None`): an absent field and an explicit null both
yield `none`. -/
def asOptStr : Option JVal → Option (Option String)
  | none => some none
  | some (.scalar .null) => some none
  | some (.scalar (.str s)) => some (some s)
  | _ => none

/-- Extract an optional integer field of `TourUpdate`. -/
def asOptInt : Option JVal → Option (Option Int)
  | none => some none
  | some (.scalar .null) => some none
  | some (.scalar (.num q)) => if q.den = 1 then some (some q.num) else none
  | _ => none

/-- Extract an optional numeric field of `TourUpdate`. -/
def asOptNum : Option JVal → Option (Option Rat)
  | none => some none
  | some (.scalar .null) => some none
  | some (.scalar (.num q)) => some (some q)
  | _ => none

/-- Extract an optional object field of `TourUpdate`. -/
def asOptDict : Option JVal → Option (Option (List (String × JScalar)))
  | none => some none
  | some (.scalar .null) => some none
  | some (.obj fs) => some (some fs)
  | _ => none

/-- Modelled from the spec: request-body validation for the `TourUpdate`
schema declared in src/backend/server.py (the pydantic engine is
third-party code not in src/).  Every field is optional with default
null; the schema declares neither `id` nor `created_at`, so no payload
can carry them. -/
def parseTourUpdate (body : JBody) : Option TourUpdate :=
  (asOptStr (jlookup body "title")).bind fun title =>
  (asOptStr (jlookup body "description")).bind fun description =>
  (asOptStr (jlookup body "destination")).bind fun destination =>
  (asOptInt (jlookup body "duration")).bind fun duration =>
  (asOptNum (jlookup body "price")).bind fun price =>
  (asOptInt (jlookup body "max_capacity")).bind fun max_capacity =>
  (asOptInt (jlookup body "available_spots")).bind fun available_spots =>
  (asOptStr (jlookup body "start_date")).bind fun start_date =>
  (asOptStr (jlookup body "end_date")).bind fun end_date =>
  (asOptStr (jlookup body "image_url")).bind fun image_url =>
  (asOptDict (jlookup body "package_details")).map fun package_details =>
  { title := title, description := description, destination := destination,
    duration := duration, price := price, max_capacity := max_capacity,
    available_spots := available_spots, start_date := start_date,
    end_date := end_date, image_url := image_url,
    package_details := package_details }

/-- Boolean infix test on character lists, used to state the spec's
substring semantics. -/
def isInfixB : List Char → List Char → Bool
  | n, [] => n.isEmpty
  | n, c :: cs => n.isPrefixOf (c :: cs) || isInfixB n cs

/-- The spec's search semantics: `needle` occurs in `hay` as a
case-insensitive substring. -/
def containsCI (needle hay : String) : Bool :=
  isInfixB (needle.data.map Char.toLower) (hay.data.map Char.toLower)

/-- The spec's criterion for a tour matching `search=x`: the title,
description, or destination contains `x` as a case-insensitive
substring. -/
def specSearchMatch (x : String) (t : Tour) : Bool :=
  containsCI x t.title || containsCI x t.description || containsCI x t.destination

/-- The PCRE metacharacters.  Inside this set a pattern character has a
non-literal regex meaning; outside it the pattern character only matches
itself (up to case under the `i` option). -/
def regexMetachars : List Char :=
  ['.', '^', '$', '*', '+', '?', '(', ')', '[', ']', '\x7b', '\x7d', '|', '\\']

/-- The string contains no regex metacharacter, i.e. MongoDB treats it as
a literal pattern. -/
def noMeta (x : String) : Bool := x.data.all (fun c => !regexMetachars.contains c)

/-- A concrete stored tour used to evaluate the theorems on explicit
inputs. -/
def tourA : Tour :=
  { id := "A", title := "ab", description := "ab", destination := "ab",
    duration := 7, price := 1299, max_capacity := 20, available_spots := 15,
    start_date := "2025-01-01", end_date := "2025-01-08", image_url := "u",
    package_details := [("transportation", .str "Flight")],
    created_at := 0, updated_at := 0 }

/-- A tour matching search pattern `x` but not destination pattern `y`. -/
def tourS : Tour :=
  { id := "S", title := "x tour", description := "d", destination := "aaa",
    duration := 1, price := 1, max_capacity := 1, available_spots := 1,
    start_date := "s", end_date := "e", image_url := "u",
    package_details := [], created_at := 0, updated_at := 0 }

/-- A tour matching both search pattern `x` and destination pattern `y`. -/
def tourB : Tour :=
  { id := "B", title := "x tour", description := "d", destination := "yyy",
    duration := 1, price := 1, max_capacity := 1, available_spots := 1,
    start_date := "s", end_date := "e", image_url := "u",
    package_details := [], created_at := 0, updated_at := 0 }

/-- A collection of 1001 documents: 1000 copies of `tourS` followed by
`tourB`, exceeding the hard `to_list(1000)` truncation of `get_tours`. -/
def bigStore : List Tour := List.replicate 1000 tourS ++ [tourB]

/-- A concrete create input used to evaluate the theorems. -/
def cInput : TourCreate :=
  { title := "Tropical Paradise Getaway", description := "Experience Bali",
    destination := "Bali, Indonesia", duration := 7, price := 1299,
    max_capacity := 20, available_spots := 15, start_date := "2025-02-01",
    end_date := "2025-02-08", image_url := "https://img",
    package_details := [("accommodation", .str "Resort")] }

/-- The empty partial update: no field supplied. -/
def emptyUpdate : TourUpdate := {}

/-- A partial update supplying only the price. -/
def priceUpdate : TourUpdate := { price := some 1399 }

/-- A create request body missing every required field but the title. -/
def badBody : JBody := [("title", .scalar (.str "t"))]

/-- An update request body supplying an explicit null for every field of
the update schema. -/
def nullBody : JBody :=
  [("title", .scalar .null), ("description", .scalar .null),
   ("destination", .scalar .null), ("duration", .scalar .null),
   ("price", .scalar .null), ("max_capacity", .scalar .null),
   ("available_spots", .scalar .null), ("start_date", .scalar .null),
   ("end_date", .scalar .null), ("image_url", .scalar .null),
   ("package_details", .scalar .null)]

/-- A collection in which no document has id `tid` yields no `find_one`
hit for `tid`. -/
theorem find?_id_eq_none {store : List Tour} {tid : String}
    (h : store.all (fun t => t.id != tid) = true) :
    store.find? (fun t => t.id == tid) = none := by
  rw [List.find?_eq_none]
  intro x hx
  have := List.all_eq_true.mp h x hx
  simpa using this

/-- Appending a document whose id matches to a collection with no match
makes `find_one` return exactly the appended document. -/
theorem find?_id_append {store : List Tour} {tid : String} {t : Tour}
    (h : store.all (fun x => x.id != tid) = true) (ht : t.id = tid) :
    (store ++ [t]).find? (fun x => x.id == tid) = some t := by
  rw [List.find?_append, find?_id_eq_none h]
  simp [ht]

/-- C1: for every valid create input, a fresh id and a current time,
`create_tour` builds the stored record from the input with `id`,
`created_at` and `updated_at` newly populated, persists it by appending
it to the collection, returns that full record, and a subsequent
`get_tour` with the returned id yields exactly that record. -/
theorem create_then_get_ok (c : TourCreate) (fid : String) (now : Nat)
    (store : List Tour) (hfresh : store.all (fun t => t.id != fid) = true) :
    (create_tour c fid now store).1 =
      { id := fid, title := c.title, description := c.description,
        destination := c.destination, duration := c.duration, price := c.price,
        max_capacity := c.max_capacity, available_spots := c.available_spots,
        start_date := c.start_date, end_date := c.end_date,
        image_url := c.image_url, package_details := c.package_details,
        created_at := now, updated_at := now } ∧
    (create_tour c fid now store).2 = store ++ [(create_tour c fid now store).1] ∧
    get_tour fid (create_tour c fid now store).2 = .ok (create_tour c fid now store).1 := by
  refine ⟨rfl, rfl, ?_⟩
  unfold get_tour create_tour
  rw [find?_id_append hfresh rfl]

/-- Witness: creating from `cInput` with fresh id `"F"` at time 7 over
the one-document collection `[tourA]` and reading the id back returns
the stored record. -/
theorem create_then_get_ok_witness :
    get_tour "F" (create_tour cInput "F" 7 [tourA]).2 =
      .ok (create_tour cInput "F" 7 [tourA]).1 :=
  (create_then_get_ok cInput "F" 7 [tourA] (by decide)).2.2

/-- C2: for every id not present in the collection, `get_tour`,
`update_tour` and `delete_tour` all fail with the 404 `notFound` error,
and the failing update and delete leave the collection unchanged. -/
theorem missing_id_notFound (tid : String) (u : TourUpdate) (now : Nat)
    (store : List Tour) (h : store.all (fun t => t.id != tid) = true) :
    get_tour tid store = .error .notFound ∧
    update_tour tid u now store = (.error .notFound, store) ∧
    delete_tour tid store = (.error .notFound, store) := by
  have hf : store.find? (fun t => t.id == tid) = none := find?_id_eq_none h
  refine ⟨?_, ?_, ?_⟩
  · unfold get_tour
    rw [hf]
  · unfold update_tour
    rw [hf]
  · unfold delete_tour
    have : store.any (fun t => t.id == tid) = false := by
      rw [← Bool.not_eq_true, List.any_eq_true]
      rintro ⟨x, hx, hid⟩
      have := List.all_eq_true.mp h x hx
      simp at this hid
      exact this hid
    rw [this]
    simp

/-- A successful `get_tour` means `find_one` hit exactly that record. -/
theorem get_tour_ok_find? {tid : String} {store : List Tour} {t : Tour}
    (h : get_tour tid store = .ok t) :
    store.find? (fun x => x.id == tid) = some t := by
  unfold get_tour at h
  cases hfind : store.find? (fun x => x.id == tid) with
  | none => rw [hfind] at h; cases h
  | some x => rw [hfind] at h; simp only [Except.ok.injEq] at h; rw [h]

/-- Rewriting the first `find_one` hit in place: `find_one` afterwards
returns the rewritten document, provided the rewrite keeps the id. -/
theorem find?_setFirstById {tid : String} {f : Tour → Tour} {store : List Tour} {t : Tour}
    (hf : store.find? (fun x => x.id == tid) = some t) (hid : (f t).id = t.id) :
    (setFirstById tid f store).find? (fun x => x.id == tid) = some (f t) := by
  induction store with
  | nil => simp [List.find?] at hf
  | cons a as ih =>
    by_cases hp : (a.id == tid) = true
    · rw [List.find?_cons_of_pos (p := fun (x : Tour) => x.id == tid) _ hp] at hf
      simp only [Option.some.injEq] at hf
      subst hf
      have hpf : ((f a).id == tid) = true := by rw [hid]; exact hp
      simp only [setFirstById]
      rw [if_pos hp, List.find?_cons_of_pos (p := fun (x : Tour) => x.id == tid) _ hpf]
    · rw [List.find?_cons_of_neg (p := fun (x : Tour) => x.id == tid) _ hp] at hf
      simp only [setFirstById]
      rw [if_neg hp, List.find?_cons_of_neg (p := fun (x : Tour) => x.id == tid) _ hp]
      exact ih hf

/-- C5: for every stored tour and partial update payload, `update_tour`
rewrites exactly the supplied (non-null) fields of that record, leaves
every omitted field — including `id` and `created_at` — at its prior
value, always sets `updated_at` to the current time, persists the
rewritten record in place, and returns the full rewritten record. -/
theorem update_frame_ok (store : List Tour) (tid : String) (u : TourUpdate)
    (now : Nat) (t : Tour) (h : get_tour tid store = .ok t) :
    update_tour tid u now store =
      (.ok (applyUpdate u now t), setFirstById tid (applyUpdate u now) store) ∧
    get_tour tid (setFirstById tid (applyUpdate u now) store) = .ok (applyUpdate u now t) ∧
    (applyUpdate u now t).title = u.title.getD t.title ∧
    (applyUpdate u now t).description = u.description.getD t.description ∧
    (applyUpdate u now t).destination = u.destination.getD t.destination ∧
    (applyUpdate u now t).duration = u.duration.getD t.duration ∧
    (applyUpdate u now t).price = u.price.getD t.price ∧
    (applyUpdate u now t).max_capacity = u.max_capacity.getD t.max_capacity ∧
    (applyUpdate u now t).available_spots = u.available_spots.getD t.available_spots ∧
    (applyUpdate u now t).start_date = u.start_date.getD t.start_date ∧
    (applyUpdate u now t).end_date = u.end_date.getD t.end_date ∧
    (applyUpdate u now t).image_url = u.image_url.getD t.image_url ∧
    (applyUpdate u now t).package_details = u.package_details.getD t.package_details ∧
    (applyUpdate u now t).id = t.id ∧
    (applyUpdate u now t).created_at = t.created_at ∧
    (applyUpdate u now t).updated_at = now := by
  have hf : store.find? (fun x => x.id == tid) = some t := get_tour_ok_find? h
  have h2 : (setFirstById tid (applyUpdate u now) store).find? (fun x => x.id == tid) =
      some (applyUpdate u now t) := find?_setFirstById hf rfl
  refine ⟨?_, ?_, rfl, rfl, rfl, rfl, rfl, rfl, rfl, rfl, rfl, rfl, rfl, rfl, rfl, rfl⟩
  · simp only [update_tour, hf, h2]
  · simp only [get_tour, h2]

/-- Witness: updating only the price of `tourA` at time 9 rewrites the
price, keeps the title, and stamps `updated_at`. -/
theorem update_frame_ok_witness :
    update_tour "A" priceUpdate 9 [tourA] =
      (.ok (applyUpdate priceUpdate 9 tourA),
        setFirstById "A" (applyUpdate priceUpdate 9) [tourA]) ∧
    (applyUpdate priceUpdate 9 tourA).price = 1399 ∧
    (applyUpdate priceUpdate 9 tourA).title = tourA.title ∧
    (applyUpdate priceUpdate 9 tourA).updated_at = 9 :=
  ⟨(update_frame_ok [tourA] "A" priceUpdate 9 tourA rfl).1, by decide, by decide, by decide⟩

/-- After removing the first `find_one` hit from a collection whose ids
are pairwise distinct, `find_one` for that id misses. -/
theorem find?_eraseFirst_eq_none (tid : String) (store : List Tour)
    (hnd : (store.map Tour.id).Nodup) :
    (eraseFirstById tid store).find? (fun x => x.id == tid) = none := by
  induction store with
  | nil => rfl
  | cons a as ih =>
    simp only [List.map_cons, List.nodup_cons] at hnd
    obtain ⟨ha, hnd2⟩ := hnd
    by_cases hp : (a.id == tid) = true
    · have hid : a.id = tid := by simpa using hp
      simp only [eraseFirstById]
      rw [if_pos hp, List.find?_eq_none]
      intro x hx hxid
      exact ha (List.mem_map.mpr ⟨x, hx, by simpa [hid] using hxid⟩)
    · simp only [eraseFirstById]
      rw [if_neg hp, List.find?_cons_of_neg (p := fun (x : Tour) => x.id == tid) _ hp, ih hnd2]

/-- C6: for every id of a stored tour (ids being unique per the data
model), `delete_tour` succeeds, removes the record, and returns only the
fixed confirmation message, which carries no content from the deleted
record; a subsequent `get_tour` on the same id fails with `notFound` —
a hard delete with no tombstone. -/
theorem delete_then_get_notFound (tid : String) (store : List Tour) (t : Tour)
    (hfind : get_tour tid store = .ok t) (hnd : (store.map Tour.id).Nodup) :
    delete_tour tid store = (.ok "Tour deleted successfully", eraseFirstById tid store) ∧
    get_tour tid (eraseFirstById tid store) = .error .notFound := by
  have hf : store.find? (fun x => x.id == tid) = some t := get_tour_ok_find? hfind
  have hpt : (t.id == tid) = true := List.find?_some (p := fun (x : Tour) => x.id == tid) hf
  have hany : store.any (fun x => x.id == tid) = true :=
    List.any_eq_true.mpr ⟨t, List.mem_of_find?_eq_some hf, hpt⟩
  constructor
  · simp only [delete_tour, hany, if_true]
  · simp only [get_tour, find?_eraseFirst_eq_none tid store hnd]

/-- Witness: deleting `tourA` from the one-document collection succeeds
with the fixed message, and the subsequent read misses. -/
theorem delete_then_get_notFound_witness :
    delete_tour "A" [tourA] = (.ok "Tour deleted successfully", eraseFirstById "A" [tourA]) ∧
    get_tour "A" (eraseFirstById "A" [tourA]) = .error .notFound :=
  delete_then_get_notFound "A" [tourA] tourA rfl (by decide)

/-- C9: an empty-string `search` or `destination` parameter is falsy in
Python, so the handler adds no clause for it and `get_tours` behaves
exactly as if the parameter were absent. -/
theorem empty_filter_ignored (store : List Tour) (search destination : Option String) :
    get_tours store (some "") destination = get_tours store none destination ∧
    get_tours store search (some "") = get_tours store search none :=
  ⟨rfl, rfl⟩

/-- Counterexample to C7 as stated: `bigStore` holds 1001 documents, and
the unfiltered `get_tours` omits the stored `tourB` because of the hard
`to_list(1000)` truncation. -/
theorem list_all_counterexample :
    tourB ∈ bigStore ∧ tourB ∉ get_tours bigStore none none := by decide

/-- C7 (amended): the result of any `get_tours` call never exceeds 1000
records, and whenever the collection holds at most 1000 records the
unfiltered `get_tours` returns every stored tour (the whole collection
in store order). -/
theorem list_all_amended (store : List Tour) (search destination : Option String) :
    (get_tours store search destination).length ≤ 1000 ∧
    (store.length ≤ 1000 → get_tours store none none = store) := by
  constructor
  · unfold get_tours
    rw [List.length_take]
    exact min_le_left _ _
  · intro h
    have hfilter : store.filter (queryPred none none) = store := by
      simp [queryPred]
    unfold get_tours
    rw [hfilter, List.take_of_length_le h]

/-- Witness: on the one-document collection a filtered list stays within
the cap and the unfiltered list returns everything. -/
theorem list_all_amended_witness :
    (get_tours [tourA] (some "a") (some "b")).length ≤ 1000 ∧
    get_tours [tourA] none none = [tourA] :=
  ⟨(list_all_amended [tourA] (some "a") (some "b")).1,
   (list_all_amended [tourA] none none).2 (by decide)⟩

/-- On a pattern free of `.`, `matchHere` is a case-insensitive prefix
test. -/
theorem matchHere_eq_isPrefixOf (pat : List Char) (h : ∀ c ∈ pat, c ≠ '.')
    (s : List Char) :
    matchHere pat s = (pat.map Char.toLower).isPrefixOf (s.map Char.toLower) := by
  induction pat generalizing s with
  | nil => cases s <;> rfl
  | cons p ps ih =>
    cases s with
    | nil => rfl
    | cons c cs =>
      have hp : (p == '.') = false := by
        have := h p (List.mem_cons_self p ps)
        simpa using this
      have hrest : ∀ x ∈ ps, x ≠ '.' := fun x hx => h x (List.mem_cons_of_mem p hx)
      simp only [matchHere, charMatchI, hp, Bool.false_or, List.map_cons]
      rw [ih hrest cs]
      rfl

/-- On a pattern free of `.`, the unanchored regex search is a
case-insensitive substring test. -/
theorem regexSearch_eq_isInfixB (pat : List Char) (h : ∀ c ∈ pat, c ≠ '.')
    (s : List Char) :
    regexSearch pat s = isInfixB (pat.map Char.toLower) (s.map Char.toLower) := by
  induction s with
  | nil =>
    simp only [regexSearch, isInfixB, List.map_nil]
    rw [matchHere_eq_isPrefixOf pat h []]
    cases pat <;> rfl
  | cons c cs ih =>
    simp only [regexSearch, isInfixB, List.map_cons]
    rw [matchHere_eq_isPrefixOf pat h, ih, List.map_cons]

/-- A metacharacter-free pattern contains no `.`. -/
theorem noMeta_no_dot {x : String} (h : noMeta x = true) : ∀ c ∈ x.data, c ≠ '.' := by
  intro c hc hcd
  have hall := List.all_eq_true.mp h c hc
  rw [Bool.not_eq_true'] at hall
  subst hcd
  have hdot : regexMetachars.contains '.' = true := by decide
  rw [hdot] at hall
  cases hall

/-- On a metacharacter-free search string, the server's regex matching
coincides with the spec's case-insensitive substring containment. -/
theorem regexSearchI_eq_containsCI {x : String} (h : noMeta x = true) (s : String) :
    regexSearchI x s = containsCI x s :=
  regexSearch_eq_isInfixB x.data (noMeta_no_dot h) s.data

/-- Every string contains the empty string as a substring. -/
theorem containsCI_empty (s : String) : containsCI "" s = true := by
  unfold containsCI
  cases s.data.map Char.toLower <;> simp [isInfixB, List.isPrefixOf]

/-- On a metacharacter-free search string, the filter that `get_tours`
builds for `search=x` agrees pointwise with the spec's substring
criterion. -/
theorem queryPred_search_eq_spec {x : String} (h : noMeta x = true) (t : Tour) :
    queryPred (some x) none t = specSearchMatch x t := by
  simp only [queryPred, Bool.and_true]
  by_cases he : x.isEmpty = true
  · rw [if_pos he]
    have hx : x = "" := (String.isEmpty_iff x).mp he
    subst hx
    simp [specSearchMatch, containsCI_empty]
  · rw [if_neg he]
    simp only [matchesSearch, specSearchMatch, regexSearchI_eq_containsCI h]

/-- Counterexample to C3 as stated: the handler interpolates the raw
search string into a MongoDB regex, so searching for `"."` returns
`tourA` even though none of its three text fields contains `"."` as a
substring. -/
theorem search_regex_counterexample :
    tourA ∈ get_tours [tourA] (some ".") none ∧ specSearchMatch "." tourA = false := by
  decide

/-- C3 (amended): for every search string built only of non-metacharacter
literals (so that the interpolated regex means literal matching) and
matching at most 1000 stored tours, `get_tours` with that search filter
returns exactly the stored tours whose title, description, or
destination contains the string as a case-insensitive substring. -/
theorem search_substring_amended (store : List Tour) (x : String)
    (hm : noMeta x = true)
    (hc : (store.filter (queryPred (some x) none)).length ≤ 1000) :
    get_tours store (some x) none = store.filter (specSearchMatch x) := by
  unfold get_tours
  rw [List.take_of_length_le hc]
  exact List.filter_congr (fun t _ => queryPred_search_eq_spec hm t)

/-- Witness: searching `"AB"` over the one-document collection returns
exactly the spec-side substring filter result (and does match `tourA`,
whose title is `"ab"`). -/
theorem search_substring_amended_witness :
    get_tours [tourA] (some "AB") none = List.filter (specSearchMatch "AB") [tourA] :=
  search_substring_amended [tourA] "AB" (by decide) (by decide)

/-- The conjunctive MongoDB query built from both parameters is the
pointwise conjunction of the two single-filter queries. -/
theorem queryPred_both_split (s d : String) (t : Tour) :
    queryPred (some s) (some d) t =
      (queryPred (some s) none t && queryPred none (some d) t) := by
  simp [queryPred]

/-- Counterexample to C4 as stated: over the 1001-document `bigStore`,
the combined filter returns `tourB`, but the search-only result has
already been truncated to the first 1000 documents and misses `tourB` —
so the combined result is not the intersection of the two single-filter
results. -/
theorem and_filter_counterexample :
    tourB ∈ get_tours bigStore (some "x") (some "y") ∧
    tourB ∉ get_tours bigStore (some "x") none := by
  decide

/-- C4 (amended): whenever each single filter matches at most 1000 stored
tours (so the `to_list(1000)` truncation bites nowhere), a tour is
returned by `get_tours` with both filters exactly when it is returned by
the search-only call and by the destination-only call: the two filters
combine by logical AND. -/
theorem and_filter_amended (store : List Tour) (s d : String) (t : Tour)
    (h1 : (store.filter (queryPred (some s) none)).length ≤ 1000)
    (h2 : (store.filter (queryPred none (some d))).length ≤ 1000) :
    (t ∈ get_tours store (some s) (some d)) ↔
      (t ∈ get_tours store (some s) none ∧ t ∈ get_tours store none (some d)) := by
  have hlen : (store.filter (queryPred (some s) (some d))).length ≤ 1000 := by
    have hsplit : store.filter (queryPred (some s) (some d)) =
        (store.filter (queryPred (some s) none)).filter (queryPred none (some d)) := by
      rw [List.filter_filter]
      exact List.filter_congr (fun t _ => by rw [queryPred_both_split, Bool.and_comm])
    rw [hsplit]
    exact le_trans (List.length_filter_le _ _) h1
  unfold get_tours
  rw [List.take_of_length_le hlen, List.take_of_length_le h1, List.take_of_length_le h2]
  simp only [List.mem_filter, queryPred_both_split, Bool.and_eq_true]
  tauto

/-- Witness: on the one-document collection, membership in the combined
`search="a"`, `destination="b"` result coincides with membership in both
single-filter results. -/
theorem and_filter_amended_witness :
    (tourA ∈ get_tours [tourA] (some "a") (some "b")) ↔
      (tourA ∈ get_tours [tourA] (some "a") none ∧
       tourA ∈ get_tours [tourA] none (some "b")) :=
  and_filter_amended [tourA] "a" "b" tourA (by decide) (by decide)

/-- Witness: id `"Z"` is absent from `[tourA]`, and all three operations
fail with `notFound` leaving the collection unchanged. -/
theorem missing_id_notFound_witness :
    get_tour "Z" [tourA] = .error .notFound ∧
    update_tour "Z" emptyUpdate 0 [tourA] = (.error .notFound, [tourA]) ∧
    delete_tour "Z" [tourA] = (.error .notFound, [tourA]) :=
  missing_id_notFound "Z" emptyUpdate 0 [tourA] (by decide)

/-- The spec-side string-field check agrees with the parser's string
extraction. -/
theorem fieldIsStr_eq (body : JBody) (k : String) :
    fieldIsStr body k = (asStr (jlookup body k)).isSome := by
  unfold fieldIsStr asStr
  rcases jlookup body k with _ | v
  · rfl
  · rcases v with w | fs
    · rcases w with _ | b | q | s <;> rfl
    · rfl

/-- The spec-side integer-field check agrees with the parser's integer
extraction. -/
theorem fieldIsInt_eq (body : JBody) (k : String) :
    fieldIsInt body k = (asInt (jlookup body k)).isSome := by
  unfold fieldIsInt asInt
  rcases jlookup body k with _ | v
  · rfl
  · rcases v with w | fs
    · rcases w with _ | b | q | s
      · rfl
      · rfl
      · by_cases hd : q.den = 1 <;> simp [hd]
      · rfl
    · rfl

/-- The spec-side number-field check agrees with the parser's numeric
extraction. -/
theorem fieldIsNum_eq (body : JBody) (k : String) :
    fieldIsNum body k = (asNum (jlookup body k)).isSome := by
  unfold fieldIsNum asNum
  rcases jlookup body k with _ | v
  · rfl
  · rcases v with w | fs
    · rcases w with _ | b | q | s <;> rfl
    · rfl

/-- The spec-side object-field check agrees with the parser's object
extraction. -/
theorem fieldIsDict_eq (body : JBody) (k : String) :
    fieldIsDict body k = (asDict (jlookup body k)).isSome := by
  unfold fieldIsDict asDict
  rcases jlookup body k with _ | v
  · rfl
  · rcases v with w | fs
    · rcases w with _ | b | q | s <;> rfl
    · rfl

/-- C8: for every create request body in which some required field is
missing or has a value of the wrong type, the create endpoint fails with
the 422-equivalent `validationFailure` and persists nothing — the
collection is returned unchanged.  (`validCreate` demands all eleven
declared fields; the schema accepts no optional fields.) -/
theorem create_invalid_validationFailure (body : JBody) (fid : String) (now : Nat)
    (store : List Tour) (h : validCreate body = false) :
    create_endpoint body fid now store = (.error .validationFailure, store) := by
  cases hp : parseTourCreate body with
  | none => simp only [create_endpoint, hp]
  | some c =>
    exfalso
    simp only [parseTourCreate, Option.bind_eq_some, Option.map_eq_some'] at hp
    obtain ⟨a1, h1, a2, h2, a3, h3, a4, h4, a5, h5, a6, h6, a7, h7, a8, h8, a9, h9,
      a10, h10, a11, h11, -⟩ := hp
    simp only [validCreate, fieldIsStr_eq, fieldIsInt_eq, fieldIsNum_eq, fieldIsDict_eq,
      h1, h2, h3, h4, h5, h6, h7, h8, h9, h10, h11, Option.isSome_some,
      Bool.and_self, Bool.and_true] at h
    cases h

/-- Witness: `badBody` supplies only a title; the create endpoint rejects
it with `validationFailure` and the empty collection stays empty. -/
theorem create_invalid_validationFailure_witness :
    validCreate badBody = false ∧
    create_endpoint badBody "F" 0 [] = (.error .validationFailure, []) :=
  ⟨by decide, create_invalid_validationFailure badBody "F" 0 [] (by decide)⟩

/-- C10: for every update request body accepted by the schema, a field
supplied as an explicit null parses to an absent field, so applying the
update leaves that field at its prior value — no field can be set to
null — and the applied update never changes `id` or `created_at`, which
the partial-update schema does not accept. -/
theorem update_null_immutable (body : JBody) (u : TourUpdate) (t : Tour) (now : Nat)
    (hp : parseTourUpdate body = some u) :
    (applyUpdate u now t).id = t.id ∧
    (applyUpdate u now t).created_at = t.created_at ∧
    (jlookup body "title" = some (.scalar .null) →
      (applyUpdate u now t).title = t.title) ∧
    (jlookup body "description" = some (.scalar .null) →
      (applyUpdate u now t).description = t.description) ∧
    (jlookup body "destination" = some (.scalar .null) →
      (applyUpdate u now t).destination = t.destination) ∧
    (jlookup body "duration" = some (.scalar .null) →
      (applyUpdate u now t).duration = t.duration) ∧
    (jlookup body "price" = some (.scalar .null) →
      (applyUpdate u now t).price = t.price) ∧
    (jlookup body "max_capacity" = some (.scalar .null) →
      (applyUpdate u now t).max_capacity = t.max_capacity) ∧
    (jlookup body "available_spots" = some (.scalar .null) →
      (applyUpdate u now t).available_spots = t.available_spots) ∧
    (jlookup body "start_date" = some (.scalar .null) →
      (applyUpdate u now t).start_date = t.start_date) ∧
    (jlookup body "end_date" = some (.scalar .null) →
      (applyUpdate u now t).end_date = t.end_date) ∧
    (jlookup body "image_url" = some (.scalar .null) →
      (applyUpdate u now t).image_url = t.image_url) ∧
    (jlookup body "package_details" = some (.scalar .null) →
      (applyUpdate u now t).package_details = t.package_details) := by
  simp only [parseTourUpdate, Option.bind_eq_some, Option.map_eq_some'] at hp
  obtain ⟨o1, h1, o2, h2, o3, h3, o4, h4, o5, h5, o6, h6, o7, h7, o8, h8, o9, h9,
    o10, h10, o11, h11, hu⟩ := hp
  subst hu
  refine ⟨rfl, rfl, ?_, ?_, ?_, ?_, ?_, ?_, ?_, ?_, ?_, ?_, ?_⟩
  · intro hk; rw [hk] at h1
    simp only [asOptStr, Option.some.injEq] at h1; subst h1; rfl
  · intro hk; rw [hk] at h2
    simp only [asOptStr, Option.some.injEq] at h2; subst h2; rfl
  · intro hk; rw [hk] at h3
    simp only [asOptStr, Option.some.injEq] at h3; subst h3; rfl
  · intro hk; rw [hk] at h4
    simp only [asOptInt, Option.some.injEq] at h4; subst h4; rfl
  · intro hk; rw [hk] at h5
    simp only [asOptNum, Option.some.injEq] at h5; subst h5; rfl
  · intro hk; rw [hk] at h6
    simp only [asOptInt, Option.some.injEq] at h6; subst h6; rfl
  · intro hk; rw [hk] at h7
    simp only [asOptInt, Option.some.injEq] at h7; subst h7; rfl
  · intro hk; rw [hk] at h8
    simp only [asOptStr, Option.some.injEq] at h8; subst h8; rfl
  · intro hk; rw [hk] at h9
    simp only [asOptStr, Option.some.injEq] at h9; subst h9; rfl
  · intro hk; rw [hk] at h10
    simp only [asOptStr, Option.some.injEq] at h10; subst h10; rfl
  · intro hk; rw [hk] at h11
    simp only [asOptDict, Option.some.injEq] at h11; subst h11; rfl

/-- Witness: the all-null update body parses to the empty update, whose
application at time 5 keeps the id and the title of `tourA`. -/
theorem update_null_immutable_witness :
    (applyUpdate emptyUpdate 5 tourA).id = tourA.id ∧
    (applyUpdate emptyUpdate 5 tourA).title = tourA.title := by
  have h := update_null_immutable nullBody emptyUpdate tourA 5 (by decide)
  exact ⟨h.1, h.2.2.1 (by decide)⟩
